import Mathlib

/-!
Shallow embedding of the ICA artifact-removal workflow implemented in
mne/artifacts/ica.py (class ICA), together with theorems settling the
specification claims about it.

Modelling conventions:

* Data matrices are lists of rows over the rationals. Channel-by-sample
  matrices keep the source layout (components/channels as rows).
* The external collaborators declared out of scope by the specification
  (the FastICA estimator's fit/transform/get_mixing_matrix, the scipy
  scoring callables skew and kurtosis, numpy's std, and scipy's pinv)
  are modelled as parameters collected in the Externals structure; every
  theorem quantifies over them, and concrete witnesses instantiate them.
  numpy's std is real-valued (a square root); it is kept as an abstract
  rational-valued parameter, and concrete inputs in the theorems below
  are chosen so that the instantiation used is the true value there.
* Python exceptions are modelled with the Except monad and the PyErr
  type; each constructor names the concrete runtime error raised at the
  corresponding source line.
* In-place numpy mutation (data *= pre_whitener in _pre_whiten and
  sources[bads, :] = 0. in _pick_sources) is modelled by returning, next
  to the function result, the final value of the caller-owned buffer.
* np.argsort is modelled as a stable sort of the index range by score
  (ties broken by index); numpy's default unstable quicksort is
  determinised this way, which agrees with it on all distinct scores.
-/

/-- Runtime errors raised by the code. Each constructor corresponds to a
concrete Python exception site in mne/artifacts/ica.py. -/
inductive PyErr where
  /-- ValueError: Sources have to match the number of components (sort_sources). -/
  | dimensionMismatch
  /-- ValueError: Channel picks have to match the previous fit (_check_picks). -/
  | channelMismatch
  /-- ValueError: Currently no raw data fitted / no epochs fitted (pick_sources_raw,
  pick_sources_epochs). -/
  | stateError
  /-- AssertionError from the shape assert in _pre_whiten. -/
  | assertionError
  /-- AttributeError: the object lacks the accessed attribute (self.raw in
  _pre_whiten, self.source_ids in the unsorted lambda, self.picks in
  decompose_epochs). -/
  | attributeError
  /-- TypeError: _get_raw_data called from get_sources_epochs with two required
  positional arguments missing. -/
  | typeError
  /-- UnboundLocalError: _get_sort_method reaches the final return with sort_func
  never assigned (its ValueError objects are constructed but never raised). -/
  | unboundLocalError
deriving DecidableEq

instance {ε α : Type} [DecidableEq ε] [DecidableEq α] : DecidableEq (Except ε α)
  | .error e, .error f =>
    if h : e = f then .isTrue (by rw [h]) else .isFalse (fun hc => h (Except.error.inj hc))
  | .error _, .ok _ => .isFalse (fun hc => Except.noConfusion hc)
  | .ok _, .error _ => .isFalse (fun hc => Except.noConfusion hc)
  | .ok a, .ok b =>
    if h : a = b then .isTrue (by rw [h]) else .isFalse (fun hc => h (Except.ok.inj hc))

/-- Projection of an Except value to its error, used to state theorems about
functions whose success type carries functions (and so has no decidable
equality). -/
def errOf {α : Type} : Except PyErr α → Option PyErr
  | .error e => some e
  | .ok _ => none

/-- Numpy fancy indexing l[p] with an integer index vector: pick the entries of
l at the positions listed in p (out-of-range reads modelled by the default). -/
def permuteD {α : Type} (p : List Nat) (l : List α) (d : α) : List α :=
  p.map (fun i => l.getD i d)

/-- Numpy boolean-mask indexing l[mask]: keep the entries of l whose mask entry
is true. -/
def maskSelect {α : Type} (l : List α) (bs : List Bool) : List α :=
  (l.zip bs).filterMap (fun q => if q.2 then some q.1 else none)

/-- Row-by-column matrix product np.dot for row-list matrices. -/
def matMul (a b : List (List ℚ)) : List (List ℚ) :=
  a.map (fun ra => b.transpose.map (fun cb => (List.zipWith (· * ·) ra cb).sum))

/-- np.hstack over a list of equally-shaped trials: concatenate along the
sample axis (used by _get_epochs_data). -/
def hstack (ts : List (List (List ℚ))) : List (List ℚ) :=
  match ts with
  | [] => []
  | t :: _ => (List.range t.length).map (fun c => (ts.map (fun trial => trial.getD c [])).flatten)

/-- Row zeroing sources[bads, :] = 0. performed by _pick_sources. -/
def zeroRows (sources : List (List ℚ)) (bads : List Nat) : List (List ℚ) :=
  List.zipWith (fun i row => if i ∈ bads then row.map (fun _ => (0 : ℚ)) else row)
    (List.range sources.length) sources

/-- Strict-then-index comparison on positions of a score list: the total order
by which np.argsort is modelled (score first, original index on ties). -/
def argsortRel (scores : List ℚ) (i j : Nat) : Prop :=
  scores.getD i 0 < scores.getD j 0 ∨ (scores.getD i 0 = scores.getD j 0 ∧ i ≤ j)

instance (scores : List ℚ) : DecidableRel (argsortRel scores) := fun i j =>
  inferInstanceAs (Decidable (_ ∨ _))

instance (scores : List ℚ) : IsTotal Nat (argsortRel scores) where
  total a b := by
    unfold argsortRel
    rcases lt_trichotomy (scores.getD a 0) (scores.getD b 0) with h | h | h
    · exact Or.inl (Or.inl h)
    · rcases Nat.le_total a b with h' | h'
      · exact Or.inl (Or.inr ⟨h, h'⟩)
      · exact Or.inr (Or.inr ⟨h.symm, h'⟩)
    · exact Or.inr (Or.inl h)

instance (scores : List ℚ) : IsTrans Nat (argsortRel scores) where
  trans a b c hab hbc := by
    unfold argsortRel at *
    rcases hab with h1 | ⟨h1, h1'⟩ <;> rcases hbc with h2 | ⟨h2, h2'⟩
    · exact Or.inl (lt_trans h1 h2)
    · exact Or.inl (h2 ▸ h1)
    · exact Or.inl (h1 ▸ h2)
    · exact Or.inr ⟨h1.trans h2, le_trans h1' h2'⟩

/-- np.argsort of a score vector: the permutation of 0..n-1 listing positions
in ascending score order (stable in the original index on tied scores). -/
def argsort (scores : List ℚ) : List Nat :=
  List.insertionSort (argsortRel scores) (List.range scores.length)

/-- External collaborators of the workflow, declared out of scope by the
specification (estimator, scoring callables, numeric primitives). The code is
modelled parametrically in them. -/
structure Externals where
  /-- np.std(row) along the sample axis (real-valued in numpy; abstract here). -/
  npStd : List ℚ → ℚ
  /-- FastICA get_mixing_matrix() after fitting on the given samples-as-rows
  matrix (fit composed with the mixing-matrix read-out; deterministic per the
  estimator contract). -/
  icaMixingOf : List (List ℚ) → List (List ℚ)
  /-- FastICA transform on a samples-as-rows matrix. -/
  icaTransform : List (List ℚ) → List (List ℚ)
  /-- scipy.linalg.pinv. -/
  pinv : List (List ℚ) → List (List ℚ)
  /-- scipy.stats.skew applied to one row. -/
  skewFn : List ℚ → ℚ
  /-- scipy.stats.kurtosis applied to one row. -/
  kurtFn : List ℚ → ℚ

/-- The picks argument accepted by the fitted-session operations: Python None,
the string sentinel previous, an explicit integer index array, or a boolean
mask (the resolved form produced by _check_picks for previous). -/
inductive Picks where
  | pynone
  | previous
  | explicit (idx : List Nat)
  | mask (bs : List Bool)
deriving DecidableEq

/-- The sort_method argument of the sorting entry points: a criterion string,
or a caller-supplied callable together with its getargspec argument names and
its per-row score. -/
inductive Criterion where
  | str (s : String)
  | callable (args : List String) (name : String) (fn : List ℚ → ℚ)

/-- A resolved sort function: its Python dunder name and the score computation
sort_func(sources, 1); invoking it can itself raise (the unsorted lambda
reads the missing attribute self.source_ids). -/
structure SortFunc where
  name : String
  fn : List (List ℚ) → Except PyErr (List ℚ)

/-- The mutable state of an ICA session object. Fields keep the source
attribute names. pre_whitener, mixing and _sort_idx are not assigned by
__init__ and are modelled with empty initial values; the operations below only
read them after the code has assigned them. -/
structure ICAState where
  noise_cov : Option (List (List ℚ))
  n_components : Option Nat
  last_fit : String
  sorted_by : String
  _channs : Option (List String)
  _last_sort : List (Option String)
  _sort_idx : List Nat
  pre_whitener : List (List ℚ)
  mixing : List (List ℚ)
deriving DecidableEq

/-- ICA.__init__: the session starts unfitted and unsorted, with the one-slot
sort buffer holding None. -/
def icaInit (noise_cov : Option (List (List ℚ))) (n_components : Option Nat) : ICAState :=
  { noise_cov := noise_cov
    n_components := n_components
    last_fit := "unfitted"
    sorted_by := "unsorted"
    _channs := none
    _last_sort := [none]
    _sort_idx := []
    pre_whitener := []
    mixing := [] }

/-- A continuous recording container: ordered channel names, channels-as-rows
data, and the last sample index. -/
structure Raw where
  ch_names : List String
  data : List (List ℚ)
  last_samp : Nat
deriving DecidableEq

/-- A segmented-trial container: ordered channel names, its own picks, and
per-trial channels-as-rows data. -/
structure Epochs where
  ch_names : List String
  picks : List Nat
  data : List (List (List ℚ))
deriving DecidableEq

/-- ICA._get_sort_method. The skew and kurtosis strings resolve to the scipy
callables; the unsorted string builds a lambda reading self.source_ids, an
attribute the class never defines, so invoking it raises AttributeError; for
every other string, and for a callable whose first two argument names are not
a and axis (or which has fewer than two arguments), the function constructs a
ValueError but never raises it, so the final return of the unassigned
sort_func raises UnboundLocalError. -/
def getSortMethod (E : Externals) (m : Criterion) : Except PyErr SortFunc :=
  match m with
  | .str s =>
    if s = "skew" then .ok ⟨"skew", fun src => .ok (src.map E.skewFn)⟩
    else if s = "kurtosis" then .ok ⟨"kurtosis", fun src => .ok (src.map E.kurtFn)⟩
    else if s = "unsorted" then .ok ⟨"unsorted", fun _ => .error .attributeError⟩
    else .error .unboundLocalError
  | .callable args nm f =>
    if 1 < args.length then
      if args.take 2 = ["a", "axis"] then .ok ⟨nm, fun src => .ok (src.map f)⟩
      else .error .unboundLocalError
    else .error .unboundLocalError

/-- Channel names selected by a picks value, np.array(ch_names)[picks]. -/
def chNamesSel (chNames : List String) : Picks → List String
  | .explicit idx => idx.map (chNames.getD · "")
  | .mask bs => maskSelect chNames bs
  | _ => []

/-- The test np.array(pickable.ch_names)[picks].tolist() != self.ch_names of
_check_picks. When the session is unfitted the ch_names property returns a
plain string, which never equals a list, so the test is true. -/
def mismatchB (st : ICAState) (chNames : List String) (p : Picks) : Bool :=
  match st._channs with
  | some l => decide (chNamesSel chNames p ≠ l)
  | none => true

/-- ICA._check_picks. None propagates as None; the previous sentinel resolves
to the boolean membership mask np.in1d(pickable.ch_names, self._channs) with
no further verification; any other picks value must reproduce the fit-time
channel names exactly or ValueError is raised. -/
def checkPicks (st : ICAState) (chNames : List String) (p : Picks) :
    Except PyErr (Option Picks) :=
  match p with
  | .pynone => .ok none
  | .previous =>
    .ok (some (.mask (chNames.map (fun c => decide (c ∈ st._channs.getD [])))))
  | q => if mismatchB st chNames q then .error .channelMismatch else .ok (some q)

/-- Row selection raw[picks] for the resolved picks forms. A None picks (only
reachable when the caller passed picks=None explicitly, unused by the claims
below) is modelled as selecting all channels. -/
def selectRows (d : List (List ℚ)) : Picks → List (List ℚ)
  | .explicit idx => permuteD idx d []
  | .mask bs => maskSelect d bs
  | _ => d

/-- ICA._get_raw_data: slice raw[picks, start:stop][0] with the documented
defaults start=0 and stop=raw.last_samp. -/
def getRawData (raw : Raw) (p : Picks) (start stop : Option Nat) : List (List ℚ) :=
  let s := start.getD 0
  let e := stop.getD raw.last_samp
  (selectRows raw.data p).map (fun row => (row.drop s).take (e - s))

/-- The per-channel inverse standard deviations np.std(data, axis=1) ** -1
computed by the standardization branch of _pre_whiten. -/
def stdChanInv (E : Externals) (data : List (List ℚ)) : List ℚ :=
  data.map (fun row => (E.npStd row)⁻¹)

/-- The standardization-whitened data: data *= pre_whitener scales row i by
the inverse standard deviation of row i. -/
def stdWhiten (E : Externals) (data : List (List ℚ)) : List (List ℚ) :=
  List.zipWith (fun row s => row.map (· * s)) data (stdChanInv E data)

/-- ICA._pre_whiten. With a noise covariance configured, the shape assert runs
first and then the call compute_whitener(self.noise_cov, self.raw.info, picks)
reads self.raw, an attribute the class never assigns, raising AttributeError.
Without one, the data is scaled in place by the inverse per-channel standard
deviations and returned together with the operator (a column vector). -/
def preWhiten (E : Externals) (st : ICAState) (data : List (List ℚ)) :
    Except PyErr (List (List ℚ) × List (List ℚ)) :=
  match st.noise_cov with
  | some cov => if data.length = cov.length then .error .attributeError else .error .assertionError
  | none => .ok (stdWhiten E data, (stdChanInv E data).map (fun s => [s]))

/-- The caller-owned data buffer after _pre_whiten returns or raises: the
standardization branch multiplies it in place (data *= pre_whitener), the
covariance branch raises before touching it. -/
def preWhitenBufferAfter (E : Externals) (st : ICAState) (data : List (List ℚ)) :
    List (List ℚ) :=
  match st.noise_cov with
  | some _ => data
  | none => stdWhiten E data

/-- ICA._get_sources: transform on data.T, transposed back to
components-as-rows. -/
def getSources (E : Externals) (data : List (List ℚ)) : List (List ℚ) :=
  (E.icaTransform data.transpose).transpose

/-- ICA.decompose_raw: reset _sort_idx to the identity (of n_components, or of
the picked channel count when n_components is None), whiten, fit, store the
transposed mixing matrix, record the fit kind and the picked channel names.
Note the method does not update self.n_components. -/
def decomposeRaw (E : Externals) (st : ICAState) (raw : Raw) (picks : List Nat)
    (start stop : Option Nat) : Except PyErr ICAState :=
  let sortIdx := match st.n_components with
    | some k => List.range k
    | none => List.range picks.length
  let data := getRawData raw (.explicit picks) start stop
  match preWhiten E st data with
  | .error e => .error e
  | .ok (wh, pw) =>
    .ok { st with
            _sort_idx := sortIdx
            pre_whitener := pw
            mixing := (E.icaMixingOf wh.transpose).transpose
            last_fit := "raw"
            _channs := some (picks.map (raw.ch_names.getD · "")) }

/-- ICA.decompose_epochs: like decompose_raw on the hstacked trials, but when
n_components is None the identity reset reads self.picks.shape[0] and
self.picks is an attribute the class never defines, raising AttributeError. -/
def decomposeEpochs (E : Externals) (st : ICAState) (ep : Epochs) (picks : Option (List Nat)) :
    Except PyErr ICAState :=
  let data := hstack ep.data
  let pks := picks.getD ep.picks
  match st.n_components with
  | none => .error .attributeError
  | some k =>
    match preWhiten E st data with
    | .error e => .error e
    | .ok (wh, pw) =>
      .ok { st with
              _sort_idx := List.range k
              pre_whitener := pw
              mixing := (E.icaMixingOf wh.transpose).transpose
              last_fit := "epochs"
              _channs := some (pks.map (ep.ch_names.getD · "")) }

/-- ICA.sort_sources: reject a source matrix whose row count differs from
self.n_components (always the case after a fit with n_components=None, which
leaves it None); on an unfitted session print and return None; otherwise score
each row, argsort the scores, compose the permutation into _sort_idx, record
the criterion name in sorted_by, push it through the one-slot _last_sort
buffer (append then pop(0)), and return the permuted sources. -/
def sortSources (E : Externals) (st : ICAState) (sources : List (List ℚ)) (m : Criterion) :
    Except PyErr (ICAState × Option (List (List ℚ))) :=
  if st.n_components ≠ some sources.length then .error .dimensionMismatch
  else if st.last_fit = "unfitted" then .ok (st, none)
  else
    match getSortMethod E m with
    | .error e => .error e
    | .ok sf =>
      match sf.fn sources with
      | .error e => .error e
      | .ok scores =>
        let sortArgs := argsort scores
        .ok ({ st with
                _sort_idx := permuteD sortArgs st._sort_idx 0
                sorted_by := sf.name
                _last_sort := (st._last_sort ++ [some sf.name]).drop 1 },
             some (permuteD sortArgs sources []))

/-- ICA.get_sources_raw: soft-return None when unfitted, then resolve picks,
slice, whiten, transform and hand the fresh sources to sort_sources with the
requested criterion. -/
def getSourcesRaw (E : Externals) (st : ICAState) (raw : Raw) (picks : Picks)
    (start stop : Option Nat) (m : Criterion) :
    Except PyErr (ICAState × Option (List (List ℚ))) :=
  if st.last_fit = "unfitted" then .ok (st, none)
  else
    match checkPicks st raw.ch_names picks with
    | .error e => .error e
    | .ok pk? =>
      let pk := pk?.getD .pynone
      let data := getRawData raw pk start stop
      match preWhiten E st data with
      | .error e => .error e
      | .ok (wh, _) => sortSources E st (getSources E wh) m

/-- ICA.get_sources_epochs: soft-return None when unfitted, resolve picks, and
then call self._get_raw_data(epochs, picks), which is missing two required
positional arguments, so every fitted call raises TypeError. -/
def getSourcesEpochs (E : Externals) (st : ICAState) (ep : Epochs) (picks : Picks)
    (m : Criterion) : Except PyErr (ICAState × Option (List (List ℚ))) :=
  if st.last_fit = "unfitted" then .ok (st, none)
  else
    match checkPicks st ep.ch_names picks with
    | .error e => .error e
    | .ok _ => .error .typeError

/-- The value the local variable sources of pick_sources_raw holds when it
reaches _pick_sources: either a sources matrix, or, if the re-sort branch
fired, the bare np.argsort index vector that the branch assigns to it. -/
inductive MatOrIdx where
  | mat (m : List (List ℚ))
  | idx (v : List Nat)
deriving DecidableEq

/-- The membership test self._last_sort[0] not in (None, sort_method) is false
(no re-sort) when the buffer holds None or a string equal to a string
criterion; a callable criterion never equals the stored string. -/
def critSame (o : Option String) (m : Criterion) : Bool :=
  match o, m with
  | none, _ => true
  | some s, .str t => s = t
  | some _, .callable _ _ _ => false

/-- ICA.pick_sources_raw up to (and excluding) the _pick_sources call: gate on
a raw fit, resolve picks, obtain freshly sorted sources via get_sources_raw
(which already updates the sort history), then, if the history slot differs
from the requested criterion, replace sources by np.argsort of its scores. -/
def pickSourcesRawSources (E : Externals) (st : ICAState) (raw : Raw) (picks : Picks)
    (start stop : Option Nat) (m : Criterion) :
    Except PyErr (ICAState × Option MatOrIdx) :=
  if st.last_fit ≠ "raw" then .error .stateError
  else
    match checkPicks st raw.ch_names picks with
    | .error e => .error e
    | .ok pk? =>
      let pk := pk?.getD .pynone
      match getSourcesRaw E st raw pk start stop m with
      | .error e => .error e
      | .ok (st', none) => .ok (st', none)
      | .ok (st', some sources) =>
        if critSame (st'._last_sort.getD 0 none) m then .ok (st', some (.mat sources))
        else
          match getSortMethod E m with
          | .error e => .error e
          | .ok sf =>
            match sf.fn sources with
            | .error e => .error e
            | .ok scores => .ok (st', some (.idx (argsort scores)))

/-- ICA.pick_sources_epochs up to the same point: resolve picks (an explicit
picks array is passed through with no check at all), gate on an epochs fit,
then call get_sources_epochs, which always raises TypeError on a fitted
session, so the remainder of the method is unreachable and modelled by
passing the result through. -/
def pickSourcesEpochs (E : Externals) (st : ICAState) (ep : Epochs) (picks : Picks)
    (m : Criterion) : Except PyErr (ICAState × Option (List (List ℚ))) :=
  let step1 : Except PyErr Picks :=
    match picks with
    | .pynone => .ok (.explicit ep.picks)
    | .previous =>
      match checkPicks st ep.ch_names .previous with
      | .error e => .error e
      | .ok pk? => .ok (pk?.getD .pynone)
    | q => .ok q
  match step1 with
  | .error e => .error e
  | .ok _ =>
    if st.last_fit ≠ "epochs" then .error .stateError
    else getSourcesEpochs E st ep .previous (.str "skew")

/-- ICA._pick_sources. The stored mixing and pre_whitener are copied; without
a noise covariance the standardization is reverted by inverting the operator
elementwise and scaling the mixing columns; with one, the mixing is multiplied
by the pseudo-inverse of the whitener. A nonempty bads list zeroes those
source rows in place in the caller-owned array. The first component of the
result is the caller's sources buffer after the call, the second the
reconstruction np.dot(sources.T, mixing).T. -/
def pickSourcesHelper (E : Externals) (st : ICAState) (sources : List (List ℚ))
    (bads : Option (List Nat)) : List (List ℚ) × List (List ℚ) :=
  let mixing :=
    match st.noise_cov with
    | none =>
      let pwInv := st.pre_whitener.map (fun r => r.map (·⁻¹))
      st.mixing.map (fun row => List.zipWith (· * ·) row (pwInv.transpose.getD 0 []))
    | some _ => matMul st.mixing (E.pinv st.pre_whitener)
  let sourcesAfter :=
    match bads with
    | none => sources
    | some [] => sources
    | some l => zeroRows sources l
  (sourcesAfter, (matMul sourcesAfter.transpose mixing).transpose)

/-! Concrete instantiations used by the closed evaluation theorems, witnesses
and counterexamples below. -/

/-- A trivial instantiation of the external collaborators: unit standard
deviations, identity transform, constant scores. -/
def extEx : Externals :=
  { npStd := fun _ => 1
    icaMixingOf := fun _ => []
    icaTransform := fun m => m
    pinv := fun m => m
    skewFn := fun _ => 0
    kurtFn := fun _ => 0 }

/-- Externals whose standard deviation is the constant 2; the concrete data
row it is applied to below is [2, 6], whose true numpy standard deviation is
exactly 2. -/
def extStd : Externals := { extEx with npStd := fun _ => 2 }

/-- A one-channel continuous container. -/
def rawOne : Raw := { ch_names := ["c1"], data := [[2, 6]], last_samp := 2 }

/-- A two-channel continuous container. -/
def rawTwo : Raw := { ch_names := ["c1", "c2"], data := [[1, 2], [3, 4]], last_samp := 2 }

/-- A five-channel continuous container. -/
def rawFive : Raw :=
  { ch_names := ["c1", "c2", "c3", "c4", "c5"]
    data := [[1, 1], [1, 1], [1, 1], [1, 1], [1, 1]]
    last_samp := 2 }

/-- A two-channel segmented container with one trial. -/
def epOne : Epochs := { ch_names := ["c1", "c2"], picks := [0, 1], data := [[[1], [2]]] }

/-- A session freshly fitted on raw data over the single channel c1, never
sorted. -/
def stR1 : ICAState :=
  { noise_cov := none
    n_components := some 1
    last_fit := "raw"
    sorted_by := "unsorted"
    _channs := some ["c1"]
    _last_sort := [none]
    _sort_idx := [0]
    pre_whitener := [[1]]
    mixing := [[1]] }

/-- stR1 after sort_sources with kurtosis. -/
def stR1a : ICAState :=
  { stR1 with sorted_by := "kurtosis", _last_sort := [some "kurtosis"] }

/-- stR1a after sort_sources with skew. -/
def stR1b : ICAState :=
  { stR1a with sorted_by := "skew", _last_sort := [some "skew"] }

/-- A fitted-on-raw session already sorted by skew. -/
def stC3 : ICAState :=
  { stR1 with sorted_by := "skew", _last_sort := [some "skew"] }

/-- stC3 after the sort with the custom callable performed inside
get_sources_raw. -/
def stC3a : ICAState :=
  { stC3 with sorted_by := "myscore", _last_sort := [some "myscore"] }

/-- A valid custom scoring callable: argument names a and axis. -/
def critCall : Criterion := .callable ["a", "axis"] "myscore" (fun _ => 0)

/-- The session state produced by decompose_raw on rawFive with
n_components=None: n_components stays None. -/
def stAfterFive : ICAState :=
  { icaInit none none with
      last_fit := "raw"
      _channs := some ["c1", "c2", "c3", "c4", "c5"]
      _sort_idx := [0, 1, 2, 3, 4]
      pre_whitener := [[1], [1], [1], [1], [1]]
      mixing := [] }

/-- A five-row source matrix. -/
def srcFive : List (List ℚ) := [[0], [0], [0], [0], [0]]

/-- A session fitted on epochs over the single channel c1. -/
def stE1 : ICAState := { stC3 with last_fit := "epochs" }

/-- stC3 refitted on rawOne: history and label survive the re-fit. -/
def stC6a : ICAState :=
  { stC3 with
      _sort_idx := [0]
      pre_whitener := [[1]]
      mixing := [] }

/-- A fitted session whose fit-time channel set contains a channel, c9, that
the containers used below do not carry. -/
def stW : ICAState := { stC3 with _channs := some ["c1", "c9"] }

/-! Helper lemmas about the argsort model, followed by the claim theorems. -/

theorem argsort_length (scores : List ℚ) : (argsort scores).length = scores.length := by
  simp [argsort, List.length_insertionSort]

theorem mem_argsort {scores : List ℚ} {i : Nat} (h : i ∈ argsort scores) : i < scores.length := by
  have := (List.mem_insertionSort (argsortRel scores)).mp h
  simpa using this

theorem argsort_pairwise (scores : List ℚ) : (argsort scores).Pairwise (argsortRel scores) :=
  List.sorted_insertionSort (argsortRel scores) (List.range scores.length)

theorem permuteD_range {α : Type} (l : List α) (d : α) :
    permuteD (List.range l.length) l d = l := by
  apply List.ext_getElem
  · simp [permuteD]
  · intro i h1 h2
    simp [permuteD, List.getD, List.getElem?_eq_getElem h2]

theorem argsort_permuted (scores : List ℚ) :
    argsort (permuteD (argsort scores) scores 0) = List.range scores.length := by
  set p := argsort scores with hp
  have hlen : (permuteD p scores 0).length = scores.length := by
    simp [permuteD, hp, argsort_length]
  have hsorted : (permuteD p scores 0).Pairwise (· ≤ ·) := by
    rw [permuteD, List.pairwise_map]
    refine (argsort_pairwise scores).imp ?_
    intro a b hab
    rcases hab with h | ⟨h, _⟩
    · exact le_of_lt h
    · exact le_of_eq h
  have hrange : (List.range scores.length).Pairwise (argsortRel (permuteD p scores 0)) := by
    rw [List.pairwise_iff_getElem]
    intro i j hi hj hij
    simp only [List.getElem_range] at *
    have hle : (permuteD p scores 0).getD i 0 ≤ (permuteD p scores 0).getD j 0 := by
      rw [List.pairwise_iff_getElem] at hsorted
      have hi' : i < (permuteD p scores 0).length := by rw [hlen]; simpa using hi
      have hj' : j < (permuteD p scores 0).length := by rw [hlen]; simpa using hj
      have := hsorted i j hi' hj' hij
      rw [List.getD_eq_getElem _ 0 hi', List.getD_eq_getElem _ 0 hj']
      exact this
    rcases lt_or_eq_of_le hle with h | h
    · exact Or.inl h
    · exact Or.inr ⟨h, Nat.le_of_lt hij⟩
  calc argsort (permuteD p scores 0)
      = List.insertionSort (argsortRel (permuteD p scores 0))
          (List.range (permuteD p scores 0).length) := rfl
    _ = List.insertionSort (argsortRel (permuteD p scores 0)) (List.range scores.length) := by
          rw [hlen]
    _ = List.range scores.length := List.Sorted.insertionSort_eq hrange

theorem map_permuteD (p : List Nat) (l : List (List ℚ)) (g : List ℚ → ℚ)
    (hp : ∀ i ∈ p, i < l.length) :
    (permuteD p l []).map g = permuteD p (l.map g) 0 := by
  simp only [permuteD, List.map_map]
  apply List.map_congr_left
  intro i hi
  have h := hp i hi
  simp [Function.comp, List.getD, List.getElem?_eq_getElem h,
    List.getElem?_eq_getElem (show i < (l.map g).length by simpa using h)]

theorem permuteD_argsort_length (g : List ℚ → ℚ) (sources : List (List ℚ)) :
    (permuteD (argsort (sources.map g)) sources []).length = sources.length := by
  simp [permuteD, argsort_length]

theorem sortSources_pure (E : Externals) (st : ICAState) (sources : List (List ℚ))
    (m : Criterion) (nm : String) (g : List ℚ → ℚ)
    (hm : getSortMethod E m = .ok ⟨nm, fun src => .ok (src.map g)⟩)
    (hfit : st.last_fit ≠ "unfitted") (hn : st.n_components = some sources.length) :
    sortSources E st sources m = .ok
      ({ st with
          _sort_idx := permuteD (argsort (sources.map g)) st._sort_idx 0
          sorted_by := nm
          _last_sort := (st._last_sort ++ [some nm]).drop 1 },
        some (permuteD (argsort (sources.map g)) sources [])) := by
  unfold sortSources
  rw [if_neg (by simp [hn]), if_neg hfit, hm]

theorem getSortMethod_rowwise (E : Externals) (s : String)
    (hs : s = "skew" ∨ s = "kurtosis") :
    ∃ g, getSortMethod E (.str s) = .ok ⟨s, fun src => .ok (src.map g)⟩ := by
  rcases hs with h | h <;> subst h
  · exact ⟨E.skewFn, rfl⟩
  · exact ⟨E.kurtFn, rfl⟩

/-- Claim C9: sorting is idempotent. For every fitted session and sources
matrix with the correct component count, applying the same sort criterion
twice in a row via sort_sources leaves the component order index and the
ordering of the returned sources unchanged by the second application. -/
theorem sort_sources_idempotent (E : Externals) (st : ICAState)
    (sources : List (List ℚ)) (s : String) (hs : s = "skew" ∨ s = "kurtosis")
    (hfit : st.last_fit ≠ "unfitted") (hn : st.n_components = some sources.length) :
    ∃ st₁ s₁ st₂, sortSources E st sources (.str s) = .ok (st₁, some s₁) ∧
      sortSources E st₁ s₁ (.str s) = .ok (st₂, some s₁) ∧
      st₂._sort_idx = st₁._sort_idx := by
  obtain ⟨g, hm⟩ := getSortMethod_rowwise E s hs
  have h₁ := sortSources_pure E st sources (.str s) s g hm hfit hn
  have hs₁len : (permuteD (argsort (sources.map g)) sources []).length = sources.length :=
    permuteD_argsort_length g sources
  have hmem : ∀ i ∈ argsort (sources.map g), i < sources.length := by
    intro i hi
    have := mem_argsort hi
    simpa using this
  have hkey : (permuteD (argsort (sources.map g)) sources []).map g =
      permuteD (argsort (sources.map g)) (sources.map g) 0 :=
    map_permuteD (argsort (sources.map g)) sources g hmem
  have hargs : argsort ((permuteD (argsort (sources.map g)) sources []).map g) =
      List.range sources.length := by
    rw [hkey]
    have := argsort_permuted (sources.map g)
    simpa using this
  have h₂ := sortSources_pure E
    ({ st with
        _sort_idx := permuteD (argsort (sources.map g)) st._sort_idx 0
        sorted_by := s
        _last_sort := (st._last_sort ++ [some s]).drop 1 })
    (permuteD (argsort (sources.map g)) sources []) (.str s) s g hm hfit
    (by rw [show ({ st with
        _sort_idx := permuteD (argsort (sources.map g)) st._sort_idx 0
        sorted_by := s
        _last_sort := (st._last_sort ++ [some s]).drop 1 } : ICAState).n_components
        = st.n_components from rfl, hn, hs₁len])
  rw [hargs] at h₂
  have hidlen : (permuteD (argsort (sources.map g)) st._sort_idx 0).length = sources.length := by
    simp [permuteD, argsort_length]
  have hfix₁ : permuteD (List.range sources.length)
      (permuteD (argsort (sources.map g)) sources []) [] =
      permuteD (argsort (sources.map g)) sources [] := by
    rw [← hs₁len]
    exact permuteD_range _ []
  have hfix₂ : permuteD (List.range sources.length)
      (permuteD (argsort (sources.map g)) st._sort_idx 0) 0 =
      permuteD (argsort (sources.map g)) st._sort_idx 0 := by
    rw [← hidlen]
    exact permuteD_range _ 0
  rw [hfix₁, hfix₂] at h₂
  exact ⟨_, _, _, h₁, h₂, rfl⟩

/-- Witness for C9 at a concrete fitted session: the second skew sort returns
the same sources and leaves the order index unchanged. -/
theorem sort_sources_idempotent_witness :
    ∃ st₁ s₁ st₂, sortSources extEx stR1 [[0, 1]] (.str "skew") = .ok (st₁, some s₁) ∧
      sortSources extEx st₁ s₁ (.str "skew") = .ok (st₂, some s₁) ∧
      st₂._sort_idx = st₁._sort_idx :=
  sort_sources_idempotent extEx stR1 [[0, 1]] "skew" (Or.inl rfl) (by decide) (by decide)

/-- Claim C1 (amended): the sort buffer is a single-slot rolling buffer; after
applying criterion A and then criterion B the history holds only B, having
held only A after the first sort. -/
theorem sort_history_single_slot (E : Externals) (st : ICAState)
    (sources : List (List ℚ)) (A B : String)
    (hA : A = "skew" ∨ A = "kurtosis") (hB : B = "skew" ∨ B = "kurtosis")
    (hfit : st.last_fit ≠ "unfitted") (hn : st.n_components = some sources.length)
    (hlen : st._last_sort.length = 1) :
    ∃ st₁ s₁ st₂ s₂,
      sortSources E st sources (.str A) = .ok (st₁, some s₁) ∧
      sortSources E st₁ s₁ (.str B) = .ok (st₂, some s₂) ∧
      st₁._last_sort = [some A] ∧ st₂._last_sort = [some B] := by
  obtain ⟨gA, hmA⟩ := getSortMethod_rowwise E A hA
  obtain ⟨gB, hmB⟩ := getSortMethod_rowwise E B hB
  obtain ⟨a, ha⟩ := List.length_eq_one.mp hlen
  have h₁ := sortSources_pure E st sources (.str A) A gA hmA hfit hn
  have h₂ := sortSources_pure E
    ({ st with
        _sort_idx := permuteD (argsort (sources.map gA)) st._sort_idx 0
        sorted_by := A
        _last_sort := (st._last_sort ++ [some A]).drop 1 })
    (permuteD (argsort (sources.map gA)) sources []) (.str B) B gB hmB hfit
    (by rw [show ({ st with
        _sort_idx := permuteD (argsort (sources.map gA)) st._sort_idx 0
        sorted_by := A
        _last_sort := (st._last_sort ++ [some A]).drop 1 } : ICAState).n_components
        = st.n_components from rfl, hn, permuteD_argsort_length gA sources])
  refine ⟨_, _, _, _, h₁, h₂, ?_, ?_⟩
  · show (st._last_sort ++ [some A]).drop 1 = [some A]
    rw [ha]
    rfl
  · show (((st._last_sort ++ [some A]).drop 1) ++ [some B]).drop 1 = [some B]
    rw [ha]
    rfl

/-- Witness for the amended C1 at a concrete session: kurtosis then skew
leaves the buffer holding only skew. -/
theorem sort_history_single_slot_witness :
    ∃ st₁ s₁ st₂ s₂,
      sortSources extEx stR1 [[0, 1]] (.str "kurtosis") = .ok (st₁, some s₁) ∧
      sortSources extEx st₁ s₁ (.str "skew") = .ok (st₂, some s₂) ∧
      st₁._last_sort = [some "kurtosis"] ∧ st₂._last_sort = [some "skew"] :=
  sort_history_single_slot extEx stR1 [[0, 1]] "kurtosis" "skew" (Or.inr rfl) (Or.inl rfl)
    (by decide) (by decide) (by decide)

/-- Counterexample to C1 as stated: after sorting by kurtosis and then by skew
the history is the single-element list holding skew, not the two-element list
of both labels. -/
theorem sort_history_two_slot_counterexample :
    sortSources extEx stR1 [[0, 1]] (.str "kurtosis") = .ok (stR1a, some [[0, 1]]) ∧
    sortSources extEx stR1a [[0, 1]] (.str "skew") = .ok (stR1b, some [[0, 1]]) ∧
    stR1b._last_sort ≠ [some "kurtosis", some "skew"] := by decide

/-- Claim C2 (code bug): after decompose_raw with n_components=None and five
picked channels, the session's n_components is still None (only _sort_idx got
the inferred length), so sort_sources rejects a five-row source matrix with
the dimension-mismatch ValueError instead of accepting it. -/
theorem n_components_not_inferred_eval :
    decomposeRaw extEx (icaInit none none) rawFive [0, 1, 2, 3, 4] none none = .ok stAfterFive ∧
    stAfterFive.n_components = none ∧
    stAfterFive._sort_idx = [0, 1, 2, 3, 4] ∧
    sortSources extEx stAfterFive srcFive (.str "skew") = .error .dimensionMismatch := by
  with_unfolding_all decide

/-- Claim C3 (code bug): on a session whose active sort is skew, calling
pick_sources_raw with a valid custom scoring callable makes the re-sort branch
fire (the history was already updated to the callable's name, which is never
equal to the callable object), and the branch replaces the sources variable
with the bare np.argsort index vector rather than reordering the rows; that
index vector is what reaches _pick_sources. -/
theorem pick_sources_raw_resort_branch_eval :
    pickSourcesRawSources extEx stC3 rawOne .previous none none critCall =
      .ok (stC3a, some (.idx [0])) := by
  with_unfolding_all decide

/-- Claim C4 (code bug): _get_sort_method builds ValueError objects for an
unrecognized criterion string and for a malformed scoring callable but never
raises them, so all three invalid shapes fail with UnboundLocalError at the
final return instead of the configuration error. -/
theorem get_sort_method_invalid_eval :
    errOf (getSortMethod extEx (.str "banana")) = some .unboundLocalError ∧
    errOf (getSortMethod extEx (.callable ["x", "y"] "f" (fun _ => 0))) =
      some .unboundLocalError ∧
    errOf (getSortMethod extEx (.callable ["a"] "g" (fun _ => 0))) =
      some .unboundLocalError :=
  ⟨rfl, rfl, rfl⟩

/-- Claim C8 (code bug): on a fitted session with a source matrix of the right
row count, sort_sources with the unsorted criterion raises AttributeError,
because the resolved lambda reads self.source_ids, which the class never
defines; the documented identity ordering is never produced. -/
theorem unsorted_attribute_error_eval :
    sortSources extEx stC3 [[2, 6]] (.str "unsorted") = .error .attributeError := by
  decide

/-- Claim C5 (amended): a mismatched explicit channel list raises the
channel-mismatch ValueError in get_sources_raw, get_sources_epochs and
pick_sources_raw; pick_sources_epochs, however, performs no check on an
explicit picks list and instead always fails with the TypeError from its
internal get_sources_epochs call, so it never reports the mismatch. -/
theorem channel_mismatch_rejection_amended (E : Externals) (st : ICAState)
    (raw : Raw) (ep : Epochs) (idx : List Nat) (m : Criterion)
    (start stop : Option Nat) :
    (st.last_fit ≠ "unfitted" → mismatchB st raw.ch_names (.explicit idx) = true →
      getSourcesRaw E st raw (.explicit idx) start stop m = .error .channelMismatch) ∧
    (st.last_fit ≠ "unfitted" → mismatchB st ep.ch_names (.explicit idx) = true →
      getSourcesEpochs E st ep (.explicit idx) m = .error .channelMismatch) ∧
    (st.last_fit = "raw" → mismatchB st raw.ch_names (.explicit idx) = true →
      pickSourcesRawSources E st raw (.explicit idx) start stop m = .error .channelMismatch) ∧
    (st.last_fit = "epochs" →
      pickSourcesEpochs E st ep (.explicit idx) m = .error .typeError) := by
  have hcpr : mismatchB st raw.ch_names (.explicit idx) = true →
      checkPicks st raw.ch_names (.explicit idx) = .error .channelMismatch := by
    intro hmis
    show (if mismatchB st raw.ch_names (.explicit idx) = true
        then (.error .channelMismatch : Except PyErr (Option Picks))
        else .ok (some (.explicit idx))) = .error .channelMismatch
    rw [if_pos hmis]
  have hcpe : mismatchB st ep.ch_names (.explicit idx) = true →
      checkPicks st ep.ch_names (.explicit idx) = .error .channelMismatch := by
    intro hmis
    show (if mismatchB st ep.ch_names (.explicit idx) = true
        then (.error .channelMismatch : Except PyErr (Option Picks))
        else .ok (some (.explicit idx))) = .error .channelMismatch
    rw [if_pos hmis]
  refine ⟨?_, ?_, ?_, ?_⟩
  · intro hfit hmis
    unfold getSourcesRaw
    rw [if_neg hfit, hcpr hmis]
  · intro hfit hmis
    unfold getSourcesEpochs
    rw [if_neg hfit, hcpe hmis]
  · intro hraw hmis
    unfold pickSourcesRawSources
    rw [if_neg (by simp [hraw]), hcpr hmis]
  · intro hep
    have h2 : st.last_fit ≠ "unfitted" := by rw [hep]; decide
    show (if st.last_fit ≠ "epochs" then (.error .stateError : Except PyErr _)
        else getSourcesEpochs E st ep .previous (.str "skew")) = .error .typeError
    rw [if_neg (by simp [hep])]
    unfold getSourcesEpochs
    rw [if_neg h2]
    rfl

/-- Witness for the amended C5 at concrete sessions and containers. -/
theorem channel_mismatch_rejection_witness :
    getSourcesRaw extEx stC3 rawTwo (.explicit [1]) none none (.str "skew") =
      .error .channelMismatch ∧
    getSourcesEpochs extEx stE1 epOne (.explicit [1]) (.str "skew") =
      .error .channelMismatch ∧
    pickSourcesRawSources extEx stC3 rawTwo (.explicit [1]) none none (.str "skew") =
      .error .channelMismatch ∧
    pickSourcesEpochs extEx stE1 epOne (.explicit [1]) (.str "skew") =
      .error .typeError :=
  ⟨(channel_mismatch_rejection_amended extEx stC3 rawTwo epOne [1] (.str "skew")
      none none).1 (by decide) (by decide),
   (channel_mismatch_rejection_amended extEx stE1 rawTwo epOne [1] (.str "skew")
      none none).2.1 (by decide) (by decide),
   (channel_mismatch_rejection_amended extEx stC3 rawTwo epOne [1] (.str "skew")
      none none).2.2.1 (by decide) (by decide),
   (channel_mismatch_rejection_amended extEx stE1 rawTwo epOne [1] (.str "skew")
      none none).2.2.2 (by decide)⟩

/-- Counterexample to C5 as stated: a fitted-on-epochs session given an
explicit channel list that does not match the fit-time channels does not raise
the channel-mismatch error from pick_sources_epochs. -/
theorem pick_sources_epochs_no_check_counterexample :
    pickSourcesEpochs extEx stE1 epOne (.explicit [1]) (.str "skew") ≠
      .error .channelMismatch ∧
    mismatchB stE1 epOne.ch_names (.explicit [1]) = true := by
  with_unfolding_all decide

/-- Claim C6 (amended): every successful re-fit resets _sort_idx to the
identity permutation of the active component count, but the sort history and
the sort label are not cleared: they keep the values they had before the
re-fit. -/
theorem refit_resets_order_keeps_history (E : Externals) (st : ICAState)
    (raw : Raw) (ep : Epochs) (picks : List Nat) (opicks : Option (List Nat))
    (start stop : Option Nat) (k : Nat) :
    (st.noise_cov = none →
      ∃ st', decomposeRaw E st raw picks start stop = .ok st' ∧
        st'._sort_idx = List.range (st.n_components.getD picks.length) ∧
        st'._last_sort = st._last_sort ∧ st'.sorted_by = st.sorted_by) ∧
    (st.noise_cov = none → st.n_components = some k →
      ∃ st'', decomposeEpochs E st ep opicks = .ok st'' ∧
        st''._sort_idx = List.range k ∧
        st''._last_sort = st._last_sort ∧ st''.sorted_by = st.sorted_by) := by
  constructor
  · intro hcov
    simp only [decomposeRaw, preWhiten, hcov]
    refine ⟨_, rfl, ?_, rfl, rfl⟩
    cases st.n_components <;> rfl
  · intro hcov hk
    simp only [decomposeEpochs, preWhiten, hcov, hk]
    exact ⟨_, rfl, rfl, rfl, rfl⟩

/-- Witness for the amended C6: re-fitting the sorted session stC3 on raw and
on epochs resets the order index but keeps history and label. -/
theorem refit_resets_order_keeps_history_witness :
    (∃ st', decomposeRaw extEx stC3 rawOne [0] none none = .ok st' ∧
      st'._sort_idx = List.range (stC3.n_components.getD [0].length) ∧
      st'._last_sort = stC3._last_sort ∧ st'.sorted_by = stC3.sorted_by) ∧
    (∃ st'', decomposeEpochs extEx stC3 epOne none = .ok st'' ∧
      st''._sort_idx = List.range 1 ∧
      st''._last_sort = stC3._last_sort ∧ st''.sorted_by = stC3.sorted_by) :=
  ⟨(refit_resets_order_keeps_history extEx stC3 rawOne epOne [0] none none none 1).1 rfl,
   (refit_resets_order_keeps_history extEx stC3 rawOne epOne [0] none none none 1).2
     rfl rfl⟩

/-- Counterexample to C6 as stated: re-fitting a session whose history holds
skew leaves the history and the sort label unchanged instead of clearing them
to their initial unfitted values. -/
theorem refit_clears_history_counterexample :
    decomposeRaw extEx stC3 rawOne [0] none none = .ok stC6a ∧
    stC6a._last_sort = [some "skew"] ∧ stC6a._last_sort ≠ [none] ∧
    stC6a.sorted_by = "skew" ∧ stC6a.sorted_by ≠ "unsorted" := by
  with_unfolding_all decide

/-- Claim C7 (amended): the caller-owned buffers are mutated in place. The
buffer passed to _pre_whiten ends up holding the returned whitened data
whenever the call returns (the standardization branch scales it in place) and
is untouched only on the raising covariance branch; the sources buffer passed
to _pick_sources ends up with its bad rows zeroed whenever bads is a nonempty
list, and is unchanged for bads None or the empty list. -/
theorem whitening_and_pick_mutation (E : Externals) (st st₂ : ICAState)
    (data sources : List (List ℚ)) (obads : Option (List Nat)) :
    preWhitenBufferAfter E st data =
      ((preWhiten E st data).toOption.map Prod.fst).getD data ∧
    (pickSourcesHelper E st₂ sources obads).1 =
      (match obads with
        | none => sources
        | some [] => sources
        | some l => zeroRows sources l) := by
  constructor
  · unfold preWhitenBufferAfter preWhiten
    cases h : st.noise_cov with
    | none => rfl
    | some cov =>
      by_cases hl : data.length = cov.length <;> simp [hl, Except.toOption]
  · unfold pickSourcesHelper
    rfl

/-- Counterexample to C7 as stated: standardization whitening of the matrix
with single row [2, 6] (true standard deviation 2) leaves the caller's array
holding [1, 3] rather than unchanged, and _pick_sources with bads=[0] zeroes
the first row of the caller's sources array. -/
theorem whiten_pick_purity_counterexample :
    preWhitenBufferAfter extStd stC3 [[2, 6]] ≠ [[2, 6]] ∧
    (pickSourcesHelper extEx stC3 [[1, 2], [3, 4]] (some [0])).1 ≠ [[1, 2], [3, 4]] := by
  with_unfolding_all decide

/-- Claim C10: resolving picks=previous on a fitted session returns the
np.in1d boolean membership mask of the container's channel names in the
fit-time channel set, unconditionally: no error is possible, and nothing
checks that every fit-time channel occurs in the container or that order and
count agree. -/
theorem check_picks_previous_in1d (st : ICAState) (chNames : List String)
    (l : List String) (h : st._channs = some l) :
    checkPicks st chNames .previous =
      .ok (some (.mask (chNames.map (fun c => decide (c ∈ l))))) := by
  simp [checkPicks, h]

/-- Witness for C10: a container carrying only c1 while the session was fitted
on c1 and c9 resolves to the mask [true, false] with no error, silently
accepting the smaller channel subset. -/
theorem check_picks_previous_in1d_witness :
    checkPicks stW ["c1", "c2"] .previous =
      .ok (some (.mask (["c1", "c2"].map (fun c => decide (c ∈ ["c1", "c9"]))))) ∧
    "c9" ∈ ["c1", "c9"] ∧ "c9" ∉ ["c1", "c2"] :=
  ⟨check_picks_previous_in1d stW ["c1", "c2"] ["c1", "c9"] rfl, by decide, by decide⟩
